import Mathlib

/-!
Shallow embedding of the tagged-value (`zval`) and call-frame (`zend_execute_data`)
core of the repository, together with proofs of the specified properties.

Pure functions of the source become Lean functions; the C union member reads
become total projections that return a junk default under a mismatched
discriminant (mirroring the reinterpretation the C union would perform);
external host primitives (callability, invocation, property read) become
oracle parameters; machine integers are `Nat`/`Int` with explicit masking at
the 64-bit word where the source performs bitwise masking.
-/

/-- Model of finite IEEE-754 binary64 values as exact dyadic rationals
`m * 2 ^ e`.  This covers every double the embedded code constructs
(integer widenings and caller-supplied payloads); NaN and the infinities are
outside the model, and no claim below exercises them. -/
structure f64 where
  m : Int
  e : Int
deriving DecidableEq, Repr

/-- Floor of the base-2 logarithm, by structural recursion on a fuel
argument (any fuel at least the input is enough). -/
def log2fuel : Nat → Nat → Nat
  | 0, _ => 0
  | fuel + 1, n => if n < 2 then 0 else log2fuel fuel (n / 2) + 1

/-- Model of the Rust `as f64` cast on a signed integer: round to nearest,
ties to even, at 53 significant bits (exact below `2 ^ 53`). -/
def intToF64 (v : Int) : f64 :=
  let n := v.natAbs
  if n < 2 ^ 53 then ⟨v, 0⟩
  else
    let k := log2fuel n n
    let sh := k - 52
    let q := n / 2 ^ sh
    let r := n % 2 ^ sh
    let q' := if 2 * r > 2 ^ sh ∨ (2 * r = 2 ^ sh ∧ q % 2 = 1) then q + 1 else q
    ⟨if v < 0 then -(q' : Int) else (q' : Int), (sh : Int)⟩

/-- Left-pad a decimal digit string with zeros to the given width. -/
def padZeros (s : String) (w : Nat) : String :=
  String.mk (List.replicate (w - s.length) '0') ++ s

/-- Drop trailing zero characters. -/
def trimZeros (s : String) : String :=
  String.mk (s.toList.reverse.dropWhile (fun c => c == '0')).reverse

/-- Model of Rust `f64::to_string`: renders the exact decimal value of the
dyadic (every dyadic has a finite decimal expansion).  The host's
shortest-round-trip rendering agrees with the exact decimal on every value
this development evaluates (integral doubles whose unit in the last place is
at most 2, and small dyadic fractions). -/
def f64ToString (x : f64) : String :=
  let sign := if x.m < 0 then "-" else ""
  let n := x.m.natAbs
  if 0 ≤ x.e then
    sign ++ toString (n * 2 ^ x.e.toNat)
  else
    let d := (-x.e).toNat
    let num := n * 5 ^ d
    let ip := num / 10 ^ d
    let fp := num % 10 ^ d
    if fp = 0 then sign ++ toString ip
    else sign ++ toString ip ++ "." ++ trimZeros (padZeros (toString fp) d)

/-- Modelled from the spec: the host-ABI discriminant byte for Null (the
`DataType` enum lives outside `src/`; per spec §3 the discriminants are
distinct constants fixed by the host runtime's ABI). -/
def DataType.Null : Nat := 1

/-- Modelled from the spec: host-ABI discriminant byte for False. -/
def DataType.False : Nat := 2

/-- Modelled from the spec: host-ABI discriminant byte for True. -/
def DataType.True : Nat := 3

/-- Modelled from the spec: host-ABI discriminant byte for Long. -/
def DataType.Long : Nat := 4

/-- Modelled from the spec: host-ABI discriminant byte for Double. -/
def DataType.Double : Nat := 5

/-- Modelled from the spec: host-ABI discriminant byte for String. -/
def DataType.String : Nat := 6

/-- Modelled from the spec: host-ABI discriminant byte for Array. -/
def DataType.Array : Nat := 7

/-- Modelled from the spec: host-ABI discriminant byte for Object. -/
def DataType.Object : Nat := 8

/-- Modelled from the spec: host-ABI discriminant byte for Resource. -/
def DataType.Resource : Nat := 9

/-- Modelled from the spec: host-ABI discriminant byte for Reference. -/
def DataType.Reference : Nat := 10

/-- Modelled from the spec: `IS_STRING_EX` — the String discriminant with the
refcounted flag in the upper byte of `type_info` (byte value `DataType.String`
plus the flag at bit 8). -/
def IS_STRING_EX : Nat := DataType.String + 256

mutual
/-- The `zend_value` union.  A union semantically holds its most recently
written member; pointer members to host strings are modelled by the string
payload they point at, pointers to arrays/objects/resources by their address,
and the `ref_` member by the referenced `Zval` it points at. -/
inductive zend_value : Type where
  | ptrVal : Nat → zend_value
  | lval : Int → zend_value
  | dval : f64 → zend_value
  | str : String → zend_value
  | res : Nat → zend_value
  | arr : Nat → zend_value
  | obj : Nat → zend_value
  | ref : Zval → zend_value

/-- The `zval` struct: the value union, the `u1.type_info` word (`u32`,
modelled as a `Nat` reduced mod `2 ^ 32` conceptually; the code only ever
stores the constants above), and the `u2` word. -/
inductive Zval : Type where
  | mk : zend_value → Nat → Nat → Zval
end

deriving instance DecidableEq for zend_value, Zval

/-- Union member of a `Zval`. -/
def Zval.value : Zval → zend_value
  | .mk v _ _ => v

/-- The `u1.type_info` word of a `Zval`. -/
def Zval.type_info : Zval → Nat
  | .mk _ t _ => t

/-- The `u2` word of a `Zval`. -/
def Zval.u2 : Zval → Nat
  | .mk _ _ u => u

/-- The `u1.v.type_` byte: low byte of `type_info`. -/
def Zval.type_ (zv : Zval) : Nat := zv.type_info % 256

/-- Reading the `lval` union member; junk (0) when another member was written
last, mirroring the bit reinterpretation a C union read would perform. -/
def zend_value.lvalRead : zend_value → Int
  | .lval v => v
  | _ => 0

/-- Reading the `dval` union member (junk default under mismatch). -/
def zend_value.dvalRead : zend_value → f64
  | .dval d => d
  | _ => ⟨0, 0⟩

/-- Reading the `str` union member (junk default under mismatch). -/
def zend_value.strRead : zend_value → String
  | .str s => s
  | _ => ""

/-- Reading the `res` union member (junk default under mismatch). -/
def zend_value.resRead : zend_value → Nat
  | .res p => p
  | _ => 0

/-- Reading the `arr` union member (junk default under mismatch). -/
def zend_value.arrRead : zend_value → Nat
  | .arr p => p
  | _ => 0

/-- Reading the `obj` union member (junk default under mismatch). -/
def zend_value.objRead : zend_value → Nat
  | .obj p => p
  | _ => 0

/-- Creates a new, empty zval (`Zval::new`): null pointer payload, Null tag. -/
def Zval.new : Zval := .mk (.ptrVal 0) DataType.Null 0

/-- Reading the `ref_` union member (junk default under mismatch);
the source reads `(*self.value.ref_).val`, i.e. the referenced zval. -/
def zend_value.refRead : zend_value → Zval
  | .ref z => z
  | _ => Zval.new

/-- `Zval::is_long`. -/
def Zval.is_long (zv : Zval) : Bool := zv.type_ == DataType.Long

/-- `Zval::is_null`. -/
def Zval.is_null (zv : Zval) : Bool := zv.type_ == DataType.Null

/-- `Zval::is_true`. -/
def Zval.is_true (zv : Zval) : Bool := zv.type_ == DataType.True

/-- `Zval::is_false`. -/
def Zval.is_false (zv : Zval) : Bool := zv.type_ == DataType.False

/-- `Zval::is_bool`. -/
def Zval.is_bool (zv : Zval) : Bool := zv.is_true || zv.is_false

/-- `Zval::is_double`. -/
def Zval.is_double (zv : Zval) : Bool := zv.type_ == DataType.Double

/-- `Zval::is_string`. -/
def Zval.is_string (zv : Zval) : Bool := zv.type_ == DataType.String

/-- `Zval::is_resource`. -/
def Zval.is_resource (zv : Zval) : Bool := zv.type_ == DataType.Resource

/-- `Zval::is_array`. -/
def Zval.is_array (zv : Zval) : Bool := zv.type_ == DataType.Array

/-- `Zval::is_object`. -/
def Zval.is_object (zv : Zval) : Bool := zv.type_ == DataType.Object

/-- `Zval::is_reference`. -/
def Zval.is_reference (zv : Zval) : Bool := zv.type_ == DataType.Reference

/-- `Zval::long`. -/
def Zval.long (zv : Zval) : Option Int :=
  if zv.is_long then some zv.value.lvalRead else none

/-- `Zval::bool`. -/
def Zval.bool (zv : Zval) : Option Bool :=
  if zv.is_true then some true
  else if zv.is_false then some false
  else none

/-- `Zval::double`: the stored double, or a Long payload widened by `as f64`. -/
def Zval.double (zv : Zval) : Option f64 :=
  if zv.is_double then some zv.value.dvalRead
  else zv.long.map intToF64

/-- `Zval::string`: the string payload (the source copies the zend string's
bytes out, which in this model is the payload itself; the payload is valid
UTF-8 by construction here, so the source's `unwrap` cannot fire), or the
rendering of `double()` for numeric tags. -/
def Zval.string (zv : Zval) : Option String :=
  if zv.is_string then some zv.value.strRead
  else zv.double.map f64ToString

/-- `Zval::resource`. -/
def Zval.resource (zv : Zval) : Option Nat :=
  if zv.is_resource then some zv.value.resRead else none

/-- `Zval::array` (the source wraps the pointer in a `ZendHashTable` via
`from_ptr`; the model returns the pointer). -/
def Zval.array (zv : Zval) : Option Nat :=
  if zv.is_array then some zv.value.arrRead else none

/-- `Zval::object`. -/
def Zval.object (zv : Zval) : Option Nat :=
  if zv.is_object then some zv.value.objRead else none

/-- `Zval::reference`. -/
def Zval.reference (zv : Zval) : Option Zval :=
  if zv.is_reference then some zv.value.refRead else none

/-- `Zval::set_long`: writes the `lval` member and the Long tag. -/
def Zval.set_long (zv : Zval) (val : Int) : Zval :=
  .mk (.lval val) DataType.Long zv.u2

/-- `Zval::set_double`: writes the `dval` member and the Double tag. -/
def Zval.set_double (zv : Zval) (val : f64) : Zval :=
  .mk (.dval val) DataType.Double zv.u2

/-- `Zval::set_bool`: writes only `u1.type_info`; the union is untouched. -/
def Zval.set_bool (zv : Zval) (val : Bool) : Zval :=
  .mk zv.value (if val then DataType.True else DataType.False) zv.u2

/-- `Zval::set_null`: writes only `u1.type_info`; the union is untouched. -/
def Zval.set_null (zv : Zval) : Zval :=
  .mk zv.value DataType.Null zv.u2

/-- `Zval::set_string`: stores a newly allocated host string holding the
payload (`ZendString::new` lives outside `src/`; per the spec it transfers the
string payload to a host-managed allocation, modelled by the payload itself)
and writes `IS_STRING_EX`. -/
def Zval.set_string (zv : Zval) (val : String) : Zval :=
  .mk (.str val) IS_STRING_EX zv.u2

/-- `Zval::set_resource`. -/
def Zval.set_resource (zv : Zval) (val : Nat) : Zval :=
  .mk (.res val) DataType.Resource zv.u2

/-- `Zval::set_object` (the `_copy` flag is unused by the source). -/
def Zval.set_object (zv : Zval) (val : Nat) (_copy : Bool) : Zval :=
  .mk (.obj val) DataType.Object zv.u2

/-- `Zval::set_array`. -/
def Zval.set_array (zv : Zval) (val : Nat) : Zval :=
  .mk (.arr val) DataType.Array zv.u2

/-- `impl From<ZendLong> for Zval`. -/
def Zval.from_long (val : Int) : Zval := Zval.new.set_long val

/-- `impl From<bool> for Zval`. -/
def Zval.from_bool (val : Bool) : Zval := Zval.new.set_bool val

/-- `impl From<f64> for Zval`. -/
def Zval.from_f64 (val : f64) : Zval := Zval.new.set_double val

/-- `impl From<String> for Zval`. -/
def Zval.from_string (val : String) : Zval := Zval.new.set_string val

/-- `ExecutionData::zend_mm_aligned_size`, the translation of
`ZEND_MM_ALIGNED_SIZE(size)`: `(size + ALIGNMENT - 1) & ALIGNMENT_MASK`.
The mask `~(m - 1)` of a power-of-two modulus `m`, read as an unsigned
64-bit word, is `2 ^ 64 - m`; sizes are non-negative and the claims bound
them below the word size, so the arithmetic is carried out in `Nat`. -/
def zend_mm_aligned_size (size m : Nat) : Nat :=
  (size + m - 1) &&& (2 ^ 64 - m)

/-- `ExecutionData::zend_call_frame_slot`, the translation of
`ZEND_CALL_FRAME_SLOT`: `(aligned(sizeof header) + aligned(sizeof zval) - 1)
/ aligned(sizeof zval)`, parameterised by the two sizes and the alignment
modulus (in the source they are compile-time constants of the host build). -/
def zend_call_frame_slot (h v m : Nat) : Nat :=
  (zend_mm_aligned_size h m + zend_mm_aligned_size v m - 1) /
    zend_mm_aligned_size v m

/-- Modelled from the spec: the host-published allocator alignment
`ZEND_MM_ALIGNMENT` (a power of two; 8 in the documented fixture build). -/
def ZEND_MM_ALIGNMENT : Nat := 8

/-- Modelled from the spec: `size_of::<zend_execute_data>()` in the
documented PHP 8.0.2 fixture build (the struct itself comes from generated
bindings outside `src/`). -/
def SIZEOF_ZEND_EXECUTE_DATA : Nat := 80

/-- Modelled from the spec: `size_of::<zval>()` in the documented fixture
build. -/
def SIZEOF_ZVAL : Nat := 16

/-- The frame-header slot count for the fixture build, as the source's
`ExecutionData::zend_call_frame_slot()` computes it from the two sizes and
the alignment constant. -/
def ExecutionData.frame_slot : Nat :=
  zend_call_frame_slot SIZEOF_ZEND_EXECUTE_DATA SIZEOF_ZVAL ZEND_MM_ALIGNMENT

/-- The `zend_execute_data` frame: its address (`base`, in `Zval`-slot
units, so that `self as *const Zval` is slot `base`), the host memory it sits
in (slot-indexed, since all the source's frame arithmetic is in whole
`Zval`-sized slots), the `(*func).common.scope` pointer (absent models a null
scope, i.e. a free function), and the `This` zval. -/
structure ExecutionData where
  base : Nat
  mem : Nat → Zval
  scope : Option Nat
  This : Zval

/-- `ExecutionData::zend_call_var_num`: `(self as *const Zval).offset(frame_slot + n)`,
i.e. the address `base + frame_slot + n` in slot units (an `isize`
computation, hence `Int`). -/
def ExecutionData.zend_call_var_num (ed : ExecutionData) (n : Int) : Int :=
  (ed.base : Int) + (ExecutionData.frame_slot : Int) + n

/-- `ExecutionData::zend_call_arg`: dereference the slot address as a `Zval`
reference; `as_ref` yields `None` exactly on a null pointer — no bounds check
against any argument count exists (the frame model carries none). -/
def ExecutionData.zend_call_arg (ed : ExecutionData) (n : Nat) : Option Zval :=
  let p := ed.zend_call_var_num (n : Int)
  if p = 0 then none else some (ed.mem p.toNat)

/-- `ExecutionData::get_parameter`: resolves `(*func).common.scope` (absent
scope means `None` via the `?` operator), then asks the host property-read
primitive (`zend_read_property`, an external collaborator modelled as the
oracle `read_prop`, whose `none` models the null sentinel) for the property
of that name on `self.This.value.obj`. -/
def ExecutionData.get_parameter
    (read_prop : Nat → Nat → String → Option Zval)
    (ed : ExecutionData) (name : String) : Option Zval :=
  match ed.scope with
  | none => none
  | some ce => read_prop ce ed.This.value.objRead name

/-- Observable outcome of one `Zval::try_call` invocation: the returned
value, whether the boxed argument buffer was reclaimed
(`Vec::from_raw_parts` reached) before returning, and which string payloads
were released to `ext_php_rs_zend_string_release`. -/
structure TryCallResult where
  retval : Option Zval
  params_buffer_reclaimed : Bool
  released_strings : List String
deriving DecidableEq

/-- `Zval::try_call`, with the two host primitives as oracles:
`callable` models `zend_is_callable` and `impl_` models
`_call_user_function_impl` (returning the status code and the value written
through the `retval` out-pointer).  The source boxes the parameter vector
into a raw buffer first, then returns early (without reaching the
reclamation block) when the receiver is not callable; on the called path it
reclaims the buffer and releases the string payloads among the parameters,
and maps a negative status to `None`. -/
def Zval.try_call (callable : Zval → Bool)
    (impl_ : Zval → List Zval → Int × Zval)
    (self : Zval) (params : List Zval) : TryCallResult :=
  if callable self = false then
    { retval := none, params_buffer_reclaimed := false, released_strings := [] }
  else
    let r := impl_ self params
    { retval := if r.1 < 0 then none else some r.2
      params_buffer_reclaimed := true
      released_strings :=
        (params.filter (fun p => p.is_string)).map (fun p => p.value.strRead) }

/-- Masking with `~(2 ^ k - 1)` at 64-bit width clears the low `k` bits:
for a word-sized `x`, `x &&& (2 ^ 64 - 2 ^ k) = x / 2 ^ k * 2 ^ k`. -/
lemma land_sub_two_pow (x k : Nat) (hk : k ≤ 64) (hx : x < 2 ^ 64) :
    x &&& (2 ^ 64 - 2 ^ k) = x / 2 ^ k * 2 ^ k := by
  have hmask : (2 : Nat) ^ 64 - 2 ^ k = (2 ^ (64 - k) - 1) <<< k := by
    rw [Nat.shiftLeft_eq, Nat.sub_mul, one_mul, ← Nat.pow_add,
      Nat.sub_add_cancel hk]
  have hrhs : x / 2 ^ k * 2 ^ k = (x >>> k) <<< k := by
    rw [Nat.shiftRight_eq_div_pow, Nat.shiftLeft_eq]
  rw [hmask, hrhs]
  apply Nat.eq_of_testBit_eq
  intro i
  rw [Nat.testBit_land, Nat.testBit_shiftLeft, Nat.testBit_shiftLeft,
    Nat.testBit_shiftRight, Nat.testBit_two_pow_sub_one]
  by_cases hik : k ≤ i
  · have h1 : k + (i - k) = i := by omega
    rw [h1]
    by_cases hi : i < 64
    · have h2 : i - k < 64 - k := by omega
      simp [ge_iff_le, hik, h2]
    · have h3 : x.testBit i = false :=
        Nat.testBit_eq_false_of_lt
          (lt_of_lt_of_le hx (Nat.pow_le_pow_right (by norm_num) (by omega)))
      simp [h3]
  · simp [ge_iff_le, hik]

/-- Under the claims' side conditions the masked rounding equals arithmetic
rounding down of `s + m - 1` to a multiple of `m`. -/
lemma zend_mm_aligned_size_eq (s k : Nat) (hk : k ≤ 64)
    (hs : s + 2 ^ k - 1 < 2 ^ 64) :
    zend_mm_aligned_size s (2 ^ k) = (s + 2 ^ k - 1) / 2 ^ k * 2 ^ k := by
  unfold zend_mm_aligned_size
  exact land_sub_two_pow _ k hk hs

/-- The exact ceiling is the unique value between consecutive multiples. -/
lemma ceil_mul_unique (A B n n' : Nat)
    (h1 : A ≤ n * B) (h2 : n * B < A + B)
    (h3 : A ≤ n' * B) (h4 : n' * B < A + B) : n = n' := by
  rcases Nat.lt_trichotomy n n' with h | h | h
  · have h5 : (n + 1) * B ≤ n' * B := Nat.mul_le_mul_right B h
    rw [Nat.add_mul, Nat.one_mul] at h5
    omega
  · exact h
  · have h5 : (n' + 1) * B ≤ n * B := Nat.mul_le_mul_right B h
    rw [Nat.add_mul, Nat.one_mul] at h5
    omega

/-- Bounds pinning `(A + B - 1) / B * B` as the ceiling rounding of `A`. -/
lemma ceil_div_mul_bounds (A B : Nat) (hB : 0 < B) :
    A ≤ (A + B - 1) / B * B ∧ (A + B - 1) / B * B < A + B := by
  have hdm := Nat.div_add_mod (A + B - 1) B
  have hmod : (A + B - 1) % B < B := Nat.mod_lt _ hB
  rw [Nat.mul_comm] at hdm
  set a := (A + B - 1) / B * B with ha
  set r := (A + B - 1) % B with hr
  omega

/-- C3: for every power-of-two modulus `2 ^ k` (with its 64-bit mask
`~(2 ^ k - 1)`) and every size `s` with `s + 2 ^ k - 1` below the word size,
`zend_mm_aligned_size` returns a multiple of the modulus that is at least `s`
and less than `s + 2 ^ k`. -/
theorem zend_mm_aligned_size_spec (s k : Nat) (hk : k ≤ 64)
    (hs : s + 2 ^ k - 1 < 2 ^ 64) :
    zend_mm_aligned_size s (2 ^ k) % 2 ^ k = 0 ∧
    s ≤ zend_mm_aligned_size s (2 ^ k) ∧
    zend_mm_aligned_size s (2 ^ k) < s + 2 ^ k := by
  have hm : 0 < 2 ^ k := Nat.two_pow_pos k
  rw [zend_mm_aligned_size_eq s k hk hs]
  have hb := ceil_div_mul_bounds s (2 ^ k) hm
  exact ⟨Nat.mul_mod_left _ _, hb.1, hb.2⟩

/-- C3 witness: the side conditions hold and the property follows at the
fixture size 80 with modulus `2 ^ 3 = 8`. -/
theorem zend_mm_aligned_size_spec_witness :
    (3 ≤ 64 ∧ 80 + 2 ^ 3 - 1 < 2 ^ 64) ∧
    (zend_mm_aligned_size 80 (2 ^ 3) % 2 ^ 3 = 0 ∧
     80 ≤ zend_mm_aligned_size 80 (2 ^ 3) ∧
     zend_mm_aligned_size 80 (2 ^ 3) < 80 + 2 ^ 3) :=
  ⟨⟨by norm_num, by norm_num⟩,
    zend_mm_aligned_size_spec 80 3 (by norm_num) (by norm_num)⟩

/-- C2: `zend_call_frame_slot` is exactly the ceiling of
`aligned_size(header) / aligned_size(value)` — it lands on the unique
multiple-count `n` with `aligned(h) ≤ n * aligned(v) < aligned(h) +
aligned(v)` (which also makes it deterministic in the three inputs: any
value meeting the characterisation is equal to it), it coincides with
Mathlib's ceiling division, and on the documented PHP 8.0.2 fixture sizes
(header 80, value 16, alignment 8) it equals 5. -/
theorem zend_call_frame_slot_spec (h v m : Nat)
    (hb : 0 < zend_mm_aligned_size v m) :
    (zend_mm_aligned_size h m ≤
        zend_call_frame_slot h v m * zend_mm_aligned_size v m ∧
      zend_call_frame_slot h v m * zend_mm_aligned_size v m <
        zend_mm_aligned_size h m + zend_mm_aligned_size v m) ∧
    (∀ n, zend_mm_aligned_size h m ≤ n * zend_mm_aligned_size v m →
      n * zend_mm_aligned_size v m <
        zend_mm_aligned_size h m + zend_mm_aligned_size v m →
      n = zend_call_frame_slot h v m) ∧
    zend_call_frame_slot h v m =
      zend_mm_aligned_size h m ⌈/⌉ zend_mm_aligned_size v m ∧
    zend_call_frame_slot SIZEOF_ZEND_EXECUTE_DATA SIZEOF_ZVAL
      ZEND_MM_ALIGNMENT = 5 := by
  have hb2 := ceil_div_mul_bounds (zend_mm_aligned_size h m)
    (zend_mm_aligned_size v m) hb
  have hslot : zend_call_frame_slot h v m =
      (zend_mm_aligned_size h m + zend_mm_aligned_size v m - 1) /
        zend_mm_aligned_size v m := rfl
  refine ⟨⟨?_, ?_⟩, ?_, ?_, ?_⟩
  · rw [hslot]; exact hb2.1
  · rw [hslot]; exact hb2.2
  · intro n h1 h2
    rw [hslot]
    exact ceil_mul_unique _ _ n _ h1 h2 (hslot ▸ hb2.1) (hslot ▸ hb2.2)
  · rw [hslot, Nat.ceilDiv_eq_add_pred_div]
  · decide

/-- C2 witness: the hypothesis holds at the fixture inputs and the fixture
conjunct yields the pinned constant 5. -/
theorem zend_call_frame_slot_spec_witness :
    0 < zend_mm_aligned_size 16 8 ∧
    zend_call_frame_slot SIZEOF_ZEND_EXECUTE_DATA SIZEOF_ZVAL
      ZEND_MM_ALIGNMENT = 5 :=
  ⟨by decide, (zend_call_frame_slot_spec 80 16 8 (by decide)).2.2.2⟩

/-- At most one discriminant byte test succeeds: the ten constants are
distinct, so over any type byte at most one equality holds. -/
lemma count_discriminants_le_one (t : Nat) :
    ([t == DataType.Null, t == DataType.Long, t == DataType.True,
      t == DataType.False, t == DataType.Double, t == DataType.String,
      t == DataType.Resource, t == DataType.Array, t == DataType.Object,
      t == DataType.Reference].count true ≤ 1) := by
  by_cases hlt : t < 11
  · interval_cases t <;> decide
  · have hf : ∀ c : Nat, c < 11 → (t == c) = false := by
      intro c hc
      simp only [beq_eq_false_iff_ne, ne_eq]
      omega
    rw [hf DataType.Null (by decide), hf DataType.Long (by decide),
      hf DataType.True (by decide), hf DataType.False (by decide),
      hf DataType.Double (by decide), hf DataType.String (by decide),
      hf DataType.Resource (by decide), hf DataType.Array (by decide),
      hf DataType.Object (by decide), hf DataType.Reference (by decide)]
    decide

/-- C4: over every `Zval`, at most one of the ten discriminant predicates is
true, and each accessor is present exactly when its predicate holds — with
`double` additionally present on Long, `string` additionally present on Long
or Double, and `bool` present on True or False. -/
theorem zval_discriminant_accessor_spec (zv : Zval) :
    ([zv.is_null, zv.is_long, zv.is_true, zv.is_false, zv.is_double,
      zv.is_string, zv.is_resource, zv.is_array, zv.is_object,
      zv.is_reference].count true ≤ 1) ∧
    zv.long.isSome = zv.is_long ∧
    zv.bool.isSome = (zv.is_true || zv.is_false) ∧
    zv.double.isSome = (zv.is_double || zv.is_long) ∧
    zv.string.isSome = (zv.is_string || zv.is_long || zv.is_double) ∧
    zv.resource.isSome = zv.is_resource ∧
    zv.array.isSome = zv.is_array ∧
    zv.object.isSome = zv.is_object ∧
    zv.reference.isSome = zv.is_reference := by
  refine ⟨count_discriminants_le_one zv.type_, ?_, ?_, ?_, ?_, ?_, ?_, ?_, ?_⟩
  · unfold Zval.long
    by_cases h : zv.is_long <;> simp [h]
  · unfold Zval.bool
    by_cases h1 : zv.is_true <;> by_cases h2 : zv.is_false <;> simp [h1, h2]
  · unfold Zval.double Zval.long
    by_cases h1 : zv.is_double <;> by_cases h2 : zv.is_long <;> simp [h1, h2]
  · unfold Zval.string Zval.double Zval.long
    by_cases h1 : zv.is_string <;> by_cases h2 : zv.is_long <;>
      by_cases h3 : zv.is_double <;> simp [h1, h2, h3]
  · unfold Zval.resource
    by_cases h : zv.is_resource <;> simp [h]
  · unfold Zval.array
    by_cases h : zv.is_array <;> simp [h]
  · unfold Zval.object
    by_cases h : zv.is_object <;> simp [h]
  · unfold Zval.reference
    by_cases h : zv.is_reference <;> simp [h]

/-- C5: numeric promotion on read is one-directional — a Long payload `v` is
widened by `double()` to `v as f64`, while `long()` on a Double is absent
(no accessor ever truncates a float payload to an integer). -/
theorem zval_numeric_promotion_one_directional (zv zw : Zval) (v : Int)
    (h1 : zv.is_long = true) (h2 : zv.value = zend_value.lval v)
    (h3 : zw.is_double = true) :
    zv.double = some (intToF64 v) ∧ zw.long = none := by
  constructor
  · have hnd : zv.is_double = false := by
      simp only [Zval.is_long, beq_iff_eq] at h1
      simp [Zval.is_double, h1, DataType.Long, DataType.Double]
    unfold Zval.double Zval.long
    rw [hnd, h1, h2]
    simp [zend_value.lvalRead]
  · have hnl : zw.is_long = false := by
      simp only [Zval.is_double, beq_iff_eq] at h3
      simp [Zval.is_long, h3, DataType.Long, DataType.Double]
    unfold Zval.long
    rw [hnl]
    simp

/-- C5 witness: at the Long zval holding 5 and the Double zval holding the
widening of 1, the promotion facts evaluate as stated. -/
theorem zval_numeric_promotion_one_directional_witness :
    (Zval.from_long 5).double = some (intToF64 5) ∧
    (Zval.from_f64 (intToF64 1)).long = none :=
  zval_numeric_promotion_one_directional (Zval.from_long 5)
    (Zval.from_f64 (intToF64 1)) 5 (by decide) rfl (by decide)

/-- C6: round-trips — storing a native long, bool, double, or string through
the `From` constructors (equivalently the setters, over any prior state) and
reading it back through the matching accessor returns the stored value. -/
theorem zval_roundtrip (zv : Zval) (v : Int) (b : Bool) (d : f64)
    (s : String) :
    (Zval.from_long v).long = some v ∧ (zv.set_long v).long = some v ∧
    (Zval.from_bool b).bool = some b ∧ (zv.set_bool b).bool = some b ∧
    (Zval.from_f64 d).double = some d ∧ (zv.set_double d).double = some d ∧
    (Zval.from_string s).string = some s ∧
    (zv.set_string s).string = some s := by
  refine ⟨?_, ?_, ?_, ?_, ?_, ?_, ?_, ?_⟩ <;>
    cases b <;>
      simp [Zval.from_long, Zval.from_bool, Zval.from_f64,
        Zval.from_string, Zval.new, Zval.set_long, Zval.set_bool,
        Zval.set_double, Zval.set_string, Zval.long, Zval.bool,
        Zval.double, Zval.string, Zval.is_long, Zval.is_true,
        Zval.is_false, Zval.is_double, Zval.is_string, Zval.type_,
        Zval.type_info, Zval.value, Zval.u2, zend_value.lvalRead,
        zend_value.dvalRead, zend_value.strRead, DataType.Long,
        DataType.True, DataType.False, DataType.Double,
        DataType.String, IS_STRING_EX]

/-- C9 counterexample: `set_bool` does not overwrite the payload — the union
member written by a prior `set_long` survives `set_bool` (and `set_null`)
unchanged, so the resulting payload still depends on the prior state,
falsifying "overwrites both the discriminant and the payload ... for every
prior state" at the explicit prior states `long 7` and `long 8`. -/
theorem set_bool_payload_not_overwritten :
    ((Zval.from_long 7).set_bool true).value = zend_value.lval 7 ∧
    ((Zval.from_long 7).set_bool true).value ≠
      ((Zval.from_long 8).set_bool true).value ∧
    (Zval.from_long 7).set_null.value = zend_value.lval 7 := by
  refine ⟨rfl, by decide, rfl⟩

/-- C9 amended: every setter overwrites the discriminant; `set_long`,
`set_double`, `set_string`, `set_resource`, `set_object` and `set_array`
also overwrite the payload, while `set_bool` and `set_null` (whose variants
carry no payload) leave the union member untouched. -/
theorem zval_setters_spec (zv : Zval) (v : Int) (d : f64) (s : String)
    (b : Bool) (p : Nat) (c : Bool) :
    ((zv.set_long v).type_info = DataType.Long ∧
      (zv.set_long v).value = zend_value.lval v) ∧
    ((zv.set_double d).type_info = DataType.Double ∧
      (zv.set_double d).value = zend_value.dval d) ∧
    ((zv.set_string s).type_info = IS_STRING_EX ∧
      (zv.set_string s).value = zend_value.str s) ∧
    ((zv.set_resource p).type_info = DataType.Resource ∧
      (zv.set_resource p).value = zend_value.res p) ∧
    ((zv.set_object p c).type_info = DataType.Object ∧
      (zv.set_object p c).value = zend_value.obj p) ∧
    ((zv.set_array p).type_info = DataType.Array ∧
      (zv.set_array p).value = zend_value.arr p) ∧
    ((zv.set_bool b).type_info =
        (if b then DataType.True else DataType.False) ∧
      (zv.set_bool b).value = zv.value) ∧
    (zv.set_null.type_info = DataType.Null ∧
      zv.set_null.value = zv.value) := by
  refine ⟨⟨rfl, rfl⟩, ⟨rfl, rfl⟩, ⟨rfl, rfl⟩, ⟨rfl, rfl⟩, ⟨rfl, rfl⟩,
    ⟨rfl, rfl⟩, ⟨rfl, ?_⟩, rfl, ?_⟩ <;>
    cases zv <;> rfl

/-- C7: argument retrieval performs pure slot arithmetic with no bounds
check — `zend_call_var_num` computes `base + frame_slot + n` in `Zval`-slot
units with `frame_slot` the value of `zend_call_frame_slot` on the fixture
sizes, and `zend_call_arg` reinterprets that address as a `Zval` reference
and returns it in `some` for every offset `n` whatsoever (the frame model
carries no argument count for any check to consult). -/
theorem zend_call_arg_spec (ed : ExecutionData) (n : Nat) :
    ed.zend_call_var_num (n : Int) =
      (ed.base : Int) + (ExecutionData.frame_slot : Int) + (n : Int) ∧
    ExecutionData.frame_slot =
      zend_call_frame_slot SIZEOF_ZEND_EXECUTE_DATA SIZEOF_ZVAL
        ZEND_MM_ALIGNMENT ∧
    ed.zend_call_arg n =
      some (ed.mem (ed.base + ExecutionData.frame_slot + n)) := by
  have h5 : ExecutionData.frame_slot = 5 := by decide
  refine ⟨rfl, rfl, ?_⟩
  simp only [ExecutionData.zend_call_arg, ExecutionData.zend_call_var_num,
    h5]
  have hne : (ed.base : Int) + ((5 : Nat) : Int) + (n : Int) ≠ 0 := by
    omega
  rw [if_neg hne]
  have ht : ((ed.base : Int) + ((5 : Nat) : Int) + (n : Int)).toNat =
      ed.base + 5 + n := by omega
  rw [ht]

/-- C8: `get_parameter` returns `none` on a frame whose function scope is
null (a free function), returns `none` when the host property-read
primitive reports the null sentinel, and returns the property's `Zval` when
the primitive yields one for the receiver. -/
theorem get_parameter_spec (read_prop : Nat → Nat → String → Option Zval)
    (ed : ExecutionData) (name : String) :
    (ed.scope = none →
      ExecutionData.get_parameter read_prop ed name = none) ∧
    (∀ ce, ed.scope = some ce →
      read_prop ce ed.This.value.objRead name = none →
      ExecutionData.get_parameter read_prop ed name = none) ∧
    (∀ ce z, ed.scope = some ce →
      read_prop ce ed.This.value.objRead name = some z →
      ExecutionData.get_parameter read_prop ed name = some z) := by
  unfold ExecutionData.get_parameter
  refine ⟨fun h => by rw [h], fun ce h hr => by rw [h]; exact hr,
    fun ce z h hr => by rw [h]; exact hr⟩

/-- C8 witness: on a scopeless frame the lookup is absent, and on a frame
with a scope whose oracle holds a `long 3` property the lookup returns it. -/
theorem get_parameter_spec_witness :
    ExecutionData.get_parameter (fun _ _ _ => none)
      { base := 0, mem := fun _ => Zval.new, scope := none,
        This := Zval.new } "prop" = none ∧
    ExecutionData.get_parameter (fun _ _ _ => some (Zval.from_long 3))
      { base := 0, mem := fun _ => Zval.new, scope := some 1,
        This := Zval.new } "prop" = some (Zval.from_long 3) :=
  ⟨(get_parameter_spec (fun _ _ _ => none)
      { base := 0, mem := fun _ => Zval.new, scope := none,
        This := Zval.new } "prop").1 rfl,
    (get_parameter_spec (fun _ _ _ => some (Zval.from_long 3))
      { base := 0, mem := fun _ => Zval.new, scope := some 1,
        This := Zval.new } "prop").2.2 1 (Zval.from_long 3) rfl rfl⟩

/-- C10: the permissive numeric-to-string read routes a Long payload through
the `as f64` widening — `string()` on a Long `v` renders `v as f64`, not `v`
— and at `v = 2 ^ 53 + 1 = 9007199254740993` (beyond exact f64 range) the
rendered string is "9007199254740992", differing from the decimal of the
stored integer. -/
theorem zval_long_string_via_double (zv : Zval) (v : Int)
    (h1 : zv.is_long = true) (h2 : zv.value = zend_value.lval v) :
    zv.string = some (f64ToString (intToF64 v)) ∧
    (Zval.from_long 9007199254740993).string =
      some "9007199254740992" ∧
    (Zval.from_long 9007199254740993).string ≠
      some (toString (9007199254740993 : Nat)) := by
  refine ⟨?_, by decide, by decide⟩
  have hns : zv.is_string = false := by
    simp only [Zval.is_long, beq_iff_eq] at h1
    simp [Zval.is_string, h1, DataType.Long, DataType.String]
  have hnd : zv.is_double = false := by
    simp only [Zval.is_long, beq_iff_eq] at h1
    simp [Zval.is_double, h1, DataType.Long, DataType.Double]
  unfold Zval.string Zval.double Zval.long
  rw [hns, hnd, h1, h2]
  simp [zend_value.lvalRead]

/-- C10 witness: applied at the Long zval holding `2 ^ 53 + 1`. -/
theorem zval_long_string_via_double_witness :
    (Zval.from_long 9007199254740993).string =
      some (f64ToString (intToF64 9007199254740993)) :=
  (zval_long_string_via_double (Zval.from_long 9007199254740993)
    9007199254740993 (by decide) rfl).1

/-- C1 (evaluation at the failing input): `try_call` on a non-callable
receiver with one string argument returns `None` with the boxed argument
buffer never reclaimed and no string payload released — the early return
precedes the reclamation block — whereas on a callable receiver the buffer
is reclaimed and the string argument's payload is released. -/
theorem try_call_noncallable_leaks :
    Zval.try_call (fun _ => false) (fun _ _ => (0, Zval.new))
        (Zval.from_long 1) [Zval.from_string "a"] =
      { retval := none, params_buffer_reclaimed := false,
        released_strings := [] } ∧
    Zval.try_call (fun _ => true) (fun _ _ => (0, Zval.new))
        (Zval.from_long 1) [Zval.from_string "a"] =
      { retval := some Zval.new, params_buffer_reclaimed := true,
        released_strings := ["a"] } ∧
    Zval.try_call (fun _ => true) (fun _ _ => (-1, Zval.new))
        (Zval.from_long 1) [Zval.from_string "a"] =
      { retval := none, params_buffer_reclaimed := true,
        released_strings := ["a"] } := by
  refine ⟨rfl, ?_, ?_⟩ <;> rfl
